import Mathlib

/-!
Shallow embedding of `src/CI/Scripts/analyze-performance.py`, the CI
performance-gate artifact analyzer, together with proofs settling the
frozen claims about it.

Modelling conventions:
* File contents are `List Char`; a read that raises in Python is an
  `Except.error` input to the reader (the `try`/`except` wrappers catch it).
* Python regex scans (`re.search`, `re.finditer`) are embedded as
  left-to-right scanners over the character list.  The three patterns used
  by the script (`Build ID: ([^\s\n]+)`, the gate pattern and the metric
  pattern) never benefit from backtracking — each greedy piece is followed
  by a character outside its class — so maximal-munch scanning matches the
  Python semantics exactly.
* Python `dict` (insertion-ordered, assignment overwrites in place) is an
  association list with `upsert`.
* `float(...)` is modelled by `parseDecimal`, covering plain decimal
  notation (optional sign, digits, optional fractional part); exponent /
  `inf` / `nan` forms never occur in the analysed inputs.
* Numbers are exact rationals; the only float formatting exercised
  (`{:.1f}` on 75.0) is exact in binary floating point as well.
* The `analysis_timestamp` field (wall-clock time, never read back by any
  logic) and console logging are not modelled.
-/

namespace PerfAnalysis

/-- The apostrophe character, used by the gate pattern `Gate '<name>'`. -/
def q1 : Char := Char.ofNat 39

/-- Python `\w` on the ASCII inputs at hand: letters, digits, underscore. -/
def isWordChar (c : Char) : Bool := c.isAlphanum || c == '_'

/-- Python `\s`: space, tab, newline, carriage return, form feed, vertical tab. -/
def isSpaceChar (c : Char) : Bool :=
  c == ' ' || c == '\t' || c == '\n' || c == '\r' || c == Char.ofNat 11 || c == Char.ofNat 12

/-- The character class `[\d.]` of the metric pattern. -/
def isDigitDot (c : Char) : Bool := c.isDigit || c == '.'

/-- `stripL pat l` returns `l` without its prefix `pat`, or `none` when
`pat` is not a prefix of `l`. -/
def stripL : List Char → List Char → Option (List Char)
  | [], l => some l
  | _ :: _, [] => none
  | p :: ps, c :: cs => if p == c then stripL ps cs else none

/-- Whether `pat` occurs as a contiguous substring of `l`
(Python's `pat in content`). -/
def containsSub (pat : List Char) : List Char → Bool
  | [] => (stripL pat []).isSome
  | c :: cs => (stripL pat (c :: cs)).isSome || containsSub pat cs

/-- `'ALL PERFORMANCE GATES PASSED'` (line 38 of the script). -/
def allPassedMarker : List Char := "ALL PERFORMANCE GATES PASSED".data

/-- `'PERFORMANCE GATES FAILED'` (line 40 of the script). -/
def failedMarker : List Char := "PERFORMANCE GATES FAILED".data

/-- Lines 37-41: `overall_success` starts `False`; `if` the all-passed
marker occurs it becomes `True`, `elif` the failed marker occurs it is set
`False`.  The `elif` is only reached when the first test failed. -/
def overallOf (content : List Char) : Bool :=
  if containsSub allPassedMarker content then true
  else if containsSub failedMarker content then false
  else false

/-- `re.search(r'Build ID: ([^\s\n]+)', content)` (line 33): first position
where the literal `Build ID: ` is followed by at least one non-whitespace
character; the capture is the maximal non-whitespace run. -/
def findBuildId : List Char → Option String
  | [] => none
  | c :: cs =>
    match stripL "Build ID: ".data (c :: cs) with
    | some rest =>
      match rest.takeWhile (fun d => !(isSpaceChar d)) with
      | [] => findBuildId cs
      | tok => some tok.asString
    | none => findBuildId cs

/-- One attempt of the gate pattern
`\[(\w+)\] Gate \'([^\']+)\': (PASS|FAIL)` (line 44) at the head of `t`;
returns name, verdict and the remainder after the match. -/
def matchGateAt (t : List Char) : Option (String × Bool × List Char) :=
  match t with
  | '[' :: t1 =>
    match t1.takeWhile isWordChar with
    | [] => none
    | tag =>
      match stripL ((']' :: " Gate ".data) ++ [q1]) (t1.drop tag.length) with
      | some t2 =>
        match t2.takeWhile (fun c => !(c == q1)) with
        | [] => none
        | name =>
          match stripL [q1, ':', ' '] (t2.drop name.length) with
          | some t3 =>
            match stripL "PASS".data t3 with
            | some t4 => some (name.asString, true, t4)
            | none =>
              match stripL "FAIL".data t3 with
              | some t4 => some (name.asString, false, t4)
              | none => none
          | none => none
      | none => none
  | _ => none

/-- `re.finditer` loop for the gate pattern: try to match at each
position, resume after each match.  `fuel` bounds the recursion and is
always instantiated with the text length, which suffices since every step
consumes at least one character. -/
def gateScan : Nat → List Char → List (String × Bool)
  | 0, _ => []
  | _, [] => []
  | fuel + 1, c :: cs =>
    match matchGateAt (c :: cs) with
    | some (n, v, rest) => (n, v) :: gateScan fuel rest
    | none => gateScan fuel cs

/-- All matches of the gate pattern in `content`, in text order (line 45). -/
def gateMatches (content : List Char) : List (String × Bool) :=
  gateScan content.length content

/-- One attempt of the metric pattern `(\w+): ([\d.]+)` (line 51) at the
head of `t`; returns name, raw number text and the remainder. -/
def matchMetricAt (t : List Char) : Option (String × String × List Char) :=
  match t.takeWhile isWordChar with
  | [] => none
  | name =>
    match t.drop name.length with
    | ':' :: ' ' :: t2 =>
      match t2.takeWhile isDigitDot with
      | [] => none
      | num => some (name.asString, num.asString, t2.drop num.length)
    | _ => none

/-- `re.finditer` loop for the metric pattern (fuel as in `gateScan`). -/
def metricScan : Nat → List Char → List (String × String)
  | 0, _ => []
  | _, [] => []
  | fuel + 1, c :: cs =>
    match matchMetricAt (c :: cs) with
    | some (n, v, rest) => (n, v) :: metricScan fuel rest
    | none => metricScan fuel cs

/-- All matches of the metric pattern in `content`, in text order. -/
def metricMatches (content : List Char) : List (String × String) :=
  metricScan content.length content

/-- Digit run to a natural number. -/
def digitsToNat (l : List Char) : Nat :=
  l.foldl (fun n c => 10 * n + (c.toNat - 48)) 0

/-- Unsigned part of `parseDecimal`: digits, optionally a dot and more
digits, with at least one digit overall and nothing left over. -/
def parseUnsigned (l1 : List Char) : Option ℚ :=
  let ip := l1.takeWhile Char.isDigit
  match l1.drop ip.length with
  | [] => if ip.isEmpty then none else some (digitsToNat ip : ℚ)
  | '.' :: rest =>
    let fp := rest.takeWhile Char.isDigit
    if !(rest.drop fp.length).isEmpty then none
    else if ip.isEmpty && fp.isEmpty then none
    else some ((digitsToNat ip : ℚ) + (digitsToNat fp : ℚ) / (10 ^ fp.length))
  | _ => none

/-- Python `float(...)` on the strings this script feeds it: optional
sign, then an integer part and/or a fractional part with at least one
digit overall, nothing else.  `float('1.2.3')`, `float('.')`, `float('')`
raise in Python and yield `none` here. -/
def parseDecimal (l : List Char) : Option ℚ :=
  match l with
  | '-' :: r => (parseUnsigned r).map (fun x => -x)
  | '+' :: r => parseUnsigned r
  | r => parseUnsigned r

/-- Insertion-ordered map update, the semantics of Python's `d[k] = v`:
an existing key keeps its position and gets the new value, a new key is
appended at the end. -/
def upsert {β : Type} : List (String × β) → String → β → List (String × β)
  | [], k, v => [(k, v)]
  | p :: ps, k, v => if p.1 == k then (k, v) :: ps else p :: upsert ps k v

/-- Python `d[k]` / `d.get(k)` on the association-list model. -/
def lookupD {β : Type} : List (String × β) → String → Option β
  | [], _ => none
  | p :: ps, k => if p.1 == k then some p.2 else lookupD ps k

/-- Build a Python dict from a sequence of assignments (the `finditer`
loops write `d[name] = value` per match, later matches overwriting). -/
def dictOf {β : Type} (l : List (String × β)) : List (String × β) :=
  l.foldl (fun m p => upsert m p.1 p.2) []

/-- The `results` record built by `parse_log_file` (lines 20-26).  The
`timestamp` field is initialised to `None` and never assigned; `metrics`
is `none` exactly when the `results['metrics']` key is absent (line 58 not
reached). -/
structure LogResult where
  gates : List (String × Bool)
  overall_success : Bool
  execution_time : Nat
  build_id : String
  timestamp : Option String
  metrics : Option (List (String × ℚ))
deriving Repr, DecidableEq

/-- The initial `results` dict of `parse_log_file` (lines 20-26), also the
value returned when reading the file raises (line 60-63). -/
def defaultLogResult : LogResult :=
  { gates := [], overall_success := false, execution_time := 0,
    build_id := "unknown", timestamp := none, metrics := none }

/-- Line 33-35: build id, with the `'unknown'` sentinel. -/
def buildIdOf (content : List Char) : String :=
  (findBuildId content).getD "unknown"

/-- The metrics loop body (lines 52-56): convert each captured number in
order with `float`; the first failing conversion raises, discarding
everything. -/
def traverseMetrics : List (String × String) → Option (List (String × ℚ))
  | [] => some []
  | p :: ps =>
    match parseDecimal p.2.data with
    | none => none
    | some x =>
      match traverseMetrics ps with
      | none => none
      | some rest => some ((p.1, x) :: rest)

/-- Lines 50-58: the metrics loop.  Python assigns the conversions into a
fresh dict; the `results['metrics']` key is attached only when every
conversion succeeds. -/
def convertMetrics (l : List (String × String)) : Option (List (String × ℚ)) :=
  (traverseMetrics l).map dictOf

/-- `parse_log_file` (lines 18-63).  The input is the outcome of
`open(...).read()`: `Except.error` when reading raises (whereupon the
`except` clause returns the untouched default), `Except.ok content`
otherwise.  A failing `float` conversion in the metrics loop raises after
`gates`, `overall_success` and `build_id` are already assigned, so those
fields survive while `metrics` stays absent. -/
def parse_log_file (input : Except String (List Char)) : LogResult :=
  match input with
  | .error _ => defaultLogResult
  | .ok content =>
    match convertMetrics (metricMatches content) with
    | some ms =>
      { gates := dictOf (gateMatches content), overall_success := overallOf content,
        execution_time := 0, build_id := buildIdOf content, timestamp := none,
        metrics := some ms }
    | none =>
      { gates := dictOf (gateMatches content), overall_success := overallOf content,
        execution_time := 0, build_id := buildIdOf content, timestamp := none,
        metrics := none }

/-- A CSV cell after the numeric-coercion attempt of lines 73-77. -/
inductive Cell where
  | num (q : ℚ)
  | str (s : String)
deriving Repr, DecidableEq

/-- One `csv.DictReader` row after coercion: column name ↦ cell. -/
abbrev Row : Type := List (String × Cell)

/-- Split on a separator character (no quoting occurs in the inputs the
claims exercise, so plain splitting models the `csv` module's record and
field division). -/
def splitOnChar (sep : Char) : List Char → List (List Char)
  | [] => [[]]
  | c :: cs =>
    match splitOnChar sep cs with
    | [] => if c == sep then [[], []] else [[c]]
    | h :: t => if c == sep then [] :: h :: t else (c :: h) :: t

/-- The records `csv.DictReader` iterates over: lines of the file split on
commas; blank lines yield empty records, which `DictReader` skips. -/
def csvRecords (content : List Char) : List (List String) :=
  (((splitOnChar '\n' content).filter (fun l => !l.isEmpty)).map
    (fun line => (splitOnChar ',' line).map List.asString))

/-- Lines 73-77: try `float(value)`, keep the string on failure. -/
def coerceCell (s : String) : Cell :=
  match parseDecimal s.data with
  | some x => Cell.num x
  | none => Cell.str s

/-- `parse_csv_report` (lines 65-82): header row then data rows, each cell
numerically coerced; a read failure returns the empty list accumulated so
far. -/
def parse_csv_report (input : Except String (List Char)) : List Row :=
  match input with
  | .error _ => []
  | .ok content =>
    match csvRecords content with
    | [] => []
    | header :: rows =>
      rows.map (fun r => (header.zip r).map (fun p => (p.1, coerceCell p.2)))

/-- JSON values, for the payloads `parse_json_report` passes through. -/
inductive JValue where
  | null
  | bool (b : Bool)
  | num (q : ℚ)
  | str (s : String)
  | arr (l : List JValue)
  | obj (l : List (String × JValue))
deriving Repr

/-- Python truthiness of a decoded JSON value (`if json_data:` line 146). -/
def jTruthy : JValue → Bool
  | .null => false
  | .bool b => b
  | .num q => !(q == 0)
  | .str s => !(s == "")
  | .arr l => !l.isEmpty
  | .obj l => !l.isEmpty

/-- `parse_json_report` (lines 84-91): the decoded value, or the empty
object `{}` when reading or decoding raises. -/
def parse_json_report (input : Except String JValue) : JValue :=
  match input with
  | .ok j => j
  | .error _ => JValue.obj []

/-- `analysis['summary']` (lines 97-103).  `analysis_timestamp` (a
wall-clock string never read back by any logic under scrutiny) is not
modelled. -/
structure Summary where
  total_gates : Nat
  passed_gates : Nat
  failed_gates : Nat
  overall_success : Bool
deriving Repr, DecidableEq

/-- The `analysis` accumulator (lines 96-107). -/
structure Analysis where
  summary : Summary
  gates : List (String × Bool)
  performance_data : List (String × List Row)
  reports : List (String × String × JValue)

/-- The accumulator's initial value (lines 96-107). -/
def initAnalysis : Analysis :=
  { summary := { total_gates := 0, passed_gates := 0, failed_gates := 0,
                 overall_success := false },
    gates := [], performance_data := [], reports := [] }

/-- One iteration of the merge loop over `log_results['gates'].items()`
(lines 120-126): upsert the gate and bump the counters. -/
def foldGateEntry (a : Analysis) (p : String × Bool) : Analysis :=
  { a with
    gates := upsert a.gates p.1 p.2,
    summary := { a.summary with
      total_gates := a.summary.total_gates + 1,
      passed_gates := a.summary.passed_gates + (if p.2 then 1 else 0),
      failed_gates := a.summary.failed_gates + (if p.2 then 0 else 1) } }

/-- Folding one parsed log file into the accumulator (lines 119-130):
merge its gates dict, then OR in its overall-success verdict. -/
def foldLog (a : Analysis) (r : LogResult) : Analysis :=
  let a1 := r.gates.foldl foldGateEntry a
  if r.overall_success then
    { a1 with summary := { a1.summary with overall_success := true } }
  else a1

/-- Folding one CSV file (lines 134-139): if the parsed rows are
non-empty, store them under the file's stem (dict assignment). -/
def foldCsv (a : Analysis) (f : String × Except String (List Char)) : Analysis :=
  let data := parse_csv_report f.2
  if data.isEmpty then a
  else { a with performance_data := upsert a.performance_data f.1 data }

/-- Folding one JSON file (lines 143-151): if the decoded value is truthy,
append a `{name, path, data}` record. -/
def foldJson (a : Analysis) (f : String × String × Except String JValue) : Analysis :=
  let j := parse_json_report f.2.2
  if jTruthy j then { a with reports := a.reports ++ [(f.1, f.2.1, j)] }
  else a

/-- The artifacts directory as the globs see it: `.log` files (base name
and read outcome), `.csv` files and `.json` files (stem, path, decode
outcome), each list in the host's enumeration order. -/
structure ArtifactsDir where
  logFiles : List (String × Except String (List Char))
  csvFiles : List (String × Except String (List Char))
  jsonFiles : List (String × String × Except String JValue)

/-- Lines 112-113: `glob('**/performance-gates.log')` is listed first and
then `glob('**/*.log')` is appended, so a file named
`performance-gates.log` is visited twice. -/
def logSchedule (d : ArtifactsDir) : List (String × Except String (List Char)) :=
  d.logFiles.filter (fun f => f.1 == "performance-gates.log") ++ d.logFiles

/-- `analyze_artifacts_directory` (lines 93-153): fold every scheduled log
file, then every CSV file, then every JSON file. -/
def analyze_artifacts_directory (d : ArtifactsDir) : Analysis :=
  let a1 := (logSchedule d).foldl (fun a f => foldLog a (parse_log_file f.2)) initAnalysis
  let a2 := d.csvFiles.foldl foldCsv a1
  d.jsonFiles.foldl foldJson a2

/-- Line 165: the overall status word of the Markdown summary. -/
def statusText (a : Analysis) : String :=
  if a.summary.overall_success then "PASSED" else "FAILED"

/-- Line 166: the overall status line of the Markdown summary. -/
def statusLine (a : Analysis) : String :=
  "## Overall Status: " ++ (if a.summary.overall_success then "✅" else "❌")
    ++ " " ++ statusText a ++ "\n\n"

/-- Round-half-even on exact rationals, the rounding of `format(x, '.1f')`
at the scaled value (exact for every value the claims exercise). -/
def roundHalfEven (x : ℚ) : ℤ :=
  let f := ⌊x⌋
  let r := x - f
  if r < 1/2 then f
  else if 1/2 < r then f + 1
  else if f % 2 = 0 then f else f + 1

/-- `{value:.1f}` for the non-negative rates this script prints: one
digit after the decimal point. -/
def formatFixed1 (x : ℚ) : String :=
  let n := (roundHalfEven (x * 10)).toNat
  toString (n / 10) ++ "." ++ toString (n % 10)

/-- Lines 174-176 of `generate_summary_report`: the success-rate line,
present only when `total_gates > 0` (the division is never reached
otherwise). -/
def successRateLine (s : Summary) : Option String :=
  if s.total_gates > 0 then
    some ("- **Success Rate**: "
      ++ formatFixed1 (((s.passed_gates : ℚ) / (s.total_gates : ℚ)) * 100) ++ "%\n")
  else none

/-- Lines 270-278 of `generate_detailed_analysis`: `gate-results.csv` is
written only when `gates` is non-empty; header row then one row per gate,
`csv.writer` printing the Python bool as `True`/`False`. -/
def gateResultsCsv (a : Analysis) : Option (List String) :=
  if a.gates.isEmpty then none
  else some ("Gate Name,Status,Success" ::
    a.gates.map (fun p =>
      p.1 ++ "," ++ (if p.2 then "PASS" else "FAIL") ++ ","
          ++ (if p.2 then "True" else "False")))

/-- Observable outcome of one `main()` run (lines 282-332). -/
structure MainResult where
  exitCode : Nat
  outputsWritten : Bool
  analysis : Option Analysis

/-- `main` (lines 282-332): a missing artifacts directory (`none`) exits 1
before any output file is created (lines 291-293); otherwise the
directory is analyzed, all reports are written, and the exit code is 1
exactly when `failed_gates > 0` (lines 327-332). -/
def mainRun (dir : Option ArtifactsDir) : MainResult :=
  match dir with
  | none => { exitCode := 1, outputsWritten := false, analysis := none }
  | some d =>
    let a := analyze_artifacts_directory d
    { exitCode := if a.summary.failed_gates > 0 then 1 else 0,
      outputsWritten := true, analysis := some a }

/-- The raw gate-pattern occurrences a log read contributes: the matches
in its text, none when the read fails. -/
def rawGates (input : Except String (List Char)) : List (String × Bool) :=
  match input with
  | .ok content => gateMatches content
  | .error _ => []

/-- First-some choice on options (used to express "the later entry wins"
when reading folds of dict assignments from the right). -/
def orO {β : Type} (a b : Option β) : Option β :=
  match a with
  | some x => some x
  | none => b

/-- The value of the last entry for key `X` in an assignment sequence. -/
def lastVal {β : Type} (X : String) (l : List (String × β)) : Option β :=
  ((l.filter (fun p => p.1 == X)).getLast?).map Prod.snd

/-- The keys of an assignment sequence or dict, in order. -/
def keysOf {β : Type} (m : List (String × β)) : List String :=
  m.map Prod.fst

/-- The parsed results of the log files, in processing order. -/
def logResults (d : ArtifactsDir) : List LogResult :=
  (logSchedule d).map (fun f => parse_log_file f.2)

/-- A log text containing the failed marker first and the all-passed
marker after it. -/
def bothMarkersText : List Char :=
  "PERFORMANCE GATES FAILED\nALL PERFORMANCE GATES PASSED\n".data

/-- A log text with two occurrences of gate `X` — one PASS, one FAIL —
inside a single file: `[A] Gate 'X': PASS` then `[B] Gate 'X': FAIL`. -/
def dupGateText : List Char :=
  "[A] Gate ".data ++ [q1] ++ "X".data ++ [q1] ++ ": PASS\n[B] Gate ".data
    ++ [q1] ++ "X".data ++ [q1] ++ ": FAIL\n".data

/-- A directory holding only the duplicate-gate log file. -/
def dupGateDir : ArtifactsDir :=
  { logFiles := [("run.log", Except.ok dupGateText)], csvFiles := [],
    jsonFiles := [] }

/-- The end-to-end scenario log text: `Build ID: b123`, the all-passed
marker, `[X] Gate 'latency': PASS`, `[X] Gate 'memory': FAIL` and
`throughput: 42.5` on successive lines. -/
def e2eText : List Char :=
  "Build ID: b123\nALL PERFORMANCE GATES PASSED\n[X] Gate ".data ++ [q1]
    ++ "latency".data ++ [q1] ++ ": PASS\n[X] Gate ".data ++ [q1]
    ++ "memory".data ++ [q1] ++ ": FAIL\nthroughput: 42.5\n".data

/-- The end-to-end scenario directory: exactly that one log file. -/
def e2eDir : ArtifactsDir :=
  { logFiles := [("build.log", Except.ok e2eText)], csvFiles := [],
    jsonFiles := [] }

/-- CSV text with header `a,b` and data rows `1,x` and `2.5,y`. -/
def rowsCsvText : List Char := "a,b\n1,x\n2.5,y\n".data

/-- A text whose metric-pattern occurrence captures `1.2.3`, which is not
a valid float literal. -/
def verText : List Char := "version: 1.2.3".data

/-- An intermediate state of the aggregation loop: the first `k` log
files fully folded in, then the first `j` gate entries of the next log
file.  Every counter state reached during the merge loop of lines
115-130 is of this shape (the CSV/JSON folds that follow never touch the
counters). -/
def partialAnalysis (d : ArtifactsDir) (k j : Nat) : Analysis :=
  let pre := ((logSchedule d).take k).foldl
    (fun a f => foldLog a (parse_log_file f.2)) initAnalysis
  match (logSchedule d).drop k with
  | [] => pre
  | f :: _ => ((parse_log_file f.2).gates.take j).foldl foldGateEntry pre

theorem orO_none_right {β : Type} (a : Option β) : orO a none = a := by
  cases a <;> rfl

theorem orO_assoc {β : Type} (a b c : Option β) :
    orO (orO a b) c = orO a (orO b c) := by
  cases a <;> rfl

theorem orO_map {β γ : Type} (f : β → γ) (a b : Option β) :
    (orO a b).map f = orO (a.map f) (b.map f) := by
  cases a <;> rfl

theorem getLast?_cons_orO {γ : Type} (a : γ) (t : List γ) :
    (a :: t).getLast? = orO t.getLast? (some a) := by
  induction t generalizing a with
  | nil => rfl
  | cons b t ih =>
    rw [List.getLast?_cons_cons, ih b, orO_assoc]
    rfl

theorem getLast?_append_orO {γ : Type} (l₁ l₂ : List γ) :
    (l₁ ++ l₂).getLast? = orO l₂.getLast? l₁.getLast? := by
  induction l₁ with
  | nil => simp [orO_none_right]
  | cons a l₁ ih =>
    rw [List.cons_append, getLast?_cons_orO, ih, getLast?_cons_orO, orO_assoc]

theorem lastVal_append {β : Type} (X : String) (a b : List (String × β)) :
    lastVal X (a ++ b) = orO (lastVal X b) (lastVal X a) := by
  simp only [lastVal, List.filter_append, getLast?_append_orO, orO_map]

theorem lookupD_upsert {β : Type} (m : List (String × β)) (k X : String) (v : β) :
    lookupD (upsert m k v) X = if k == X then some v else lookupD m X := by
  induction m with
  | nil =>
    simp only [upsert, lookupD]
  | cons p ps ih =>
    by_cases hpk : p.1 = k
    · simp only [upsert, hpk, beq_self_eq_true, if_true, lookupD]
      by_cases hkX : k = X
      · simp [hkX]
      · have h1 : (k == X) = false := by simp [hkX]
        have h2 : (p.1 == X) = false := by simp [hpk, hkX]
        simp [h1, h2]
    · have h0 : (p.1 == k) = false := by simp [hpk]
      simp only [upsert, h0, Bool.false_eq_true, if_false, lookupD, ih]
      by_cases hpX : p.1 = X
      · have hkX : ¬ (k = X) := fun h => hpk (by rw [hpX, h])
        simp [hpX, hkX]
      · simp [hpX]

theorem lookupD_foldl_upsert {β : Type} (l : List (String × β))
    (m : List (String × β)) (X : String) :
    lookupD (l.foldl (fun m p => upsert m p.1 p.2) m) X
      = orO (lastVal X l) (lookupD m X) := by
  induction l generalizing m with
  | nil => simp [lastVal, orO]
  | cons p l ih =>
    simp only [List.foldl_cons, ih, lookupD_upsert]
    cases hpX : (p.1 == X) with
    | true =>
      simp only [lastVal, List.filter_cons, hpX, if_true, getLast?_cons_orO, orO_map]
      rw [orO_assoc]
      rfl
    | false =>
      simp only [lastVal, List.filter_cons, hpX, Bool.false_eq_true, if_false]

theorem lookupD_dictOf {β : Type} (l : List (String × β)) (X : String) :
    lookupD (dictOf l) X = lastVal X l := by
  rw [dictOf, lookupD_foldl_upsert, lookupD, orO_none_right]

theorem mem_keysOf_upsert {β : Type} (m : List (String × β)) (k a : String) (v : β) :
    a ∈ keysOf (upsert m k v) ↔ a ∈ keysOf m ∨ a = k := by
  induction m with
  | nil => simp [upsert, keysOf]
  | cons p ps ih =>
    by_cases hpk : p.1 = k
    · subst hpk
      simp only [upsert, beq_self_eq_true, if_true, keysOf, List.map_cons,
        List.mem_cons]
      tauto
    · have h0 : (p.1 == k) = false := by simp [hpk]
      simp only [upsert, h0, Bool.false_eq_true, if_false, keysOf, List.map_cons,
        List.mem_cons] at *
      rw [ih]
      tauto

theorem nodup_keysOf_upsert {β : Type} (m : List (String × β)) (k : String) (v : β)
    (h : (keysOf m).Nodup) : (keysOf (upsert m k v)).Nodup := by
  induction m with
  | nil => simp [upsert, keysOf]
  | cons p ps ih =>
    simp only [keysOf, List.map_cons, List.nodup_cons] at h
    by_cases hpk : p.1 = k
    · simp only [upsert, hpk, beq_self_eq_true, if_true, keysOf, List.map_cons,
        List.nodup_cons]
      exact ⟨by rw [← hpk]; exact h.1, h.2⟩
    · have h0 : (p.1 == k) = false := by simp [hpk]
      simp only [upsert, h0, Bool.false_eq_true, if_false, keysOf, List.map_cons,
        List.nodup_cons]
      refine ⟨fun hc => ?_, ih h.2⟩
      rcases (mem_keysOf_upsert ps k p.1 v).mp hc with hmem | heq
      · exact h.1 hmem
      · exact hpk heq

theorem nodup_keysOf_foldl {β : Type} (l : List (String × β))
    (m : List (String × β)) (h : (keysOf m).Nodup) :
    (keysOf (l.foldl (fun m p => upsert m p.1 p.2) m)).Nodup := by
  induction l generalizing m with
  | nil => exact h
  | cons p l ih => exact ih _ (nodup_keysOf_upsert m p.1 p.2 h)

theorem nodup_keysOf_dictOf {β : Type} (l : List (String × β)) :
    (keysOf (dictOf l)).Nodup :=
  nodup_keysOf_foldl l [] (by simp [keysOf])

theorem filter_eq_nil_of_not_mem_keysOf {β : Type} (m : List (String × β))
    (X : String) (h : X ∉ keysOf m) :
    m.filter (fun p => p.1 == X) = [] := by
  induction m with
  | nil => rfl
  | cons p ps ih =>
    simp only [keysOf, List.map_cons, List.mem_cons] at h
    push_neg at h
    have h1 : (p.1 == X) = false := by
      simp only [beq_eq_false_iff_ne, ne_eq]
      exact fun hc => h.1 hc.symm
    simp only [List.filter_cons, h1, Bool.false_eq_true, if_false]
    exact ih (by simpa [keysOf] using h.2)

theorem lastVal_eq_lookupD_of_nodup {β : Type} (m : List (String × β)) (X : String)
    (h : (keysOf m).Nodup) : lastVal X m = lookupD m X := by
  induction m with
  | nil => rfl
  | cons p ps ih =>
    simp only [keysOf, List.map_cons, List.nodup_cons] at h
    cases hpX : (p.1 == X) with
    | true =>
      have hXk : X ∉ keysOf ps := by
        have := eq_of_beq hpX
        rw [← this]; exact h.1
      simp only [lastVal, List.filter_cons, hpX, if_true,
        filter_eq_nil_of_not_mem_keysOf ps X hXk, lookupD]
      rfl
    | false =>
      simp only [lastVal, List.filter_cons, hpX, Bool.false_eq_true, if_false, lookupD]
      exact ih h.2

theorem lastVal_dictOf {β : Type} (l : List (String × β)) (X : String) :
    lastVal X (dictOf l) = lastVal X l := by
  rw [lastVal_eq_lookupD_of_nodup _ _ (nodup_keysOf_dictOf l), lookupD_dictOf]

theorem lastVal_flatten_dictOf {β : Type} (X : String)
    (ls : List (List (String × β))) :
    lastVal X (ls.map dictOf).flatten = lastVal X ls.flatten := by
  induction ls with
  | nil => rfl
  | cons l ls ih =>
    simp only [List.map_cons, List.flatten_cons, lastVal_append, ih, lastVal_dictOf]

theorem mem_keysOf_foldl {β : Type} (l : List (String × β))
    (m : List (String × β)) (a : String) :
    a ∈ keysOf (l.foldl (fun m p => upsert m p.1 p.2) m)
      ↔ a ∈ keysOf m ∨ a ∈ keysOf l := by
  induction l generalizing m with
  | nil => simp [keysOf]
  | cons p l ih =>
    rw [List.foldl_cons, ih, mem_keysOf_upsert]
    simp only [keysOf, List.map_cons, List.mem_cons]
    tauto

theorem mem_keysOf_dictOf {β : Type} (l : List (String × β)) (a : String) :
    a ∈ keysOf (dictOf l) ↔ a ∈ keysOf l := by
  rw [dictOf, mem_keysOf_foldl]
  simp [keysOf]

theorem parse_log_file_gates (input : Except String (List Char)) :
    (parse_log_file input).gates = dictOf (rawGates input) := by
  cases input with
  | error e => rfl
  | ok c =>
    simp only [parse_log_file, rawGates]
    cases h : convertMetrics (metricMatches c) <;> simp [h]

theorem parse_log_file_overall (c : List Char) :
    (parse_log_file (Except.ok c)).overall_success = overallOf c := by
  simp only [parse_log_file]
  cases h : convertMetrics (metricMatches c) <;> simp [h]

theorem parse_log_file_build_id (c : List Char) :
    (parse_log_file (Except.ok c)).build_id = buildIdOf c := by
  simp only [parse_log_file]
  cases h : convertMetrics (metricMatches c) <;> simp [h]

theorem foldl_gateEntries_gates (l : List (String × Bool)) (a : Analysis) :
    (l.foldl foldGateEntry a).gates
      = l.foldl (fun m p => upsert m p.1 p.2) a.gates := by
  induction l generalizing a with
  | nil => rfl
  | cons p l ih => simp only [List.foldl_cons, ih, foldGateEntry]

theorem foldl_gateEntries_overall (l : List (String × Bool)) (a : Analysis) :
    (l.foldl foldGateEntry a).summary.overall_success
      = a.summary.overall_success := by
  induction l generalizing a with
  | nil => rfl
  | cons p l ih => simp only [List.foldl_cons, ih, foldGateEntry]

theorem foldl_gateEntries_total (l : List (String × Bool)) (a : Analysis) :
    (l.foldl foldGateEntry a).summary.total_gates
      = a.summary.total_gates + l.length := by
  induction l generalizing a with
  | nil => rfl
  | cons p l ih =>
    simp only [List.foldl_cons, ih, foldGateEntry, List.length_cons]
    omega

theorem foldl_gateEntries_balance (l : List (String × Bool)) (a : Analysis)
    (h : a.summary.total_gates = a.summary.passed_gates + a.summary.failed_gates) :
    (l.foldl foldGateEntry a).summary.total_gates
      = (l.foldl foldGateEntry a).summary.passed_gates
        + (l.foldl foldGateEntry a).summary.failed_gates := by
  induction l generalizing a with
  | nil => exact h
  | cons p l ih =>
    refine ih _ ?_
    simp only [foldGateEntry]
    cases p.2 <;> simp <;> omega

theorem foldLog_gates (a : Analysis) (r : LogResult) :
    (foldLog a r).gates
      = r.gates.foldl (fun m p => upsert m p.1 p.2) a.gates := by
  simp only [foldLog]
  split <;> simp [foldl_gateEntries_gates]

theorem foldLog_overall (a : Analysis) (r : LogResult) :
    (foldLog a r).summary.overall_success
      = (a.summary.overall_success || r.overall_success) := by
  simp only [foldLog]
  cases hr : r.overall_success <;> simp [hr, foldl_gateEntries_overall]

theorem foldLog_total (a : Analysis) (r : LogResult) :
    (foldLog a r).summary.total_gates
      = a.summary.total_gates + r.gates.length := by
  simp only [foldLog]
  split <;> simp [foldl_gateEntries_total]

theorem foldLog_balance (a : Analysis) (r : LogResult)
    (h : a.summary.total_gates = a.summary.passed_gates + a.summary.failed_gates) :
    (foldLog a r).summary.total_gates
      = (foldLog a r).summary.passed_gates + (foldLog a r).summary.failed_gates := by
  simp only [foldLog]
  split <;> simpa using foldl_gateEntries_balance r.gates a h

theorem foldCsv_summary (a : Analysis) (f : String × Except String (List Char)) :
    (foldCsv a f).summary = a.summary := by
  simp only [foldCsv]
  split <;> rfl

theorem foldCsv_gates (a : Analysis) (f : String × Except String (List Char)) :
    (foldCsv a f).gates = a.gates := by
  simp only [foldCsv]
  split <;> rfl

theorem foldJson_summary (a : Analysis) (f : String × String × Except String JValue) :
    (foldJson a f).summary = a.summary := by
  simp only [foldJson]
  split <;> rfl

theorem foldJson_gates (a : Analysis) (f : String × String × Except String JValue) :
    (foldJson a f).gates = a.gates := by
  simp only [foldJson]
  split <;> rfl

theorem foldl_csv_summary (l : List (String × Except String (List Char)))
    (a : Analysis) : (l.foldl foldCsv a).summary = a.summary := by
  induction l generalizing a with
  | nil => rfl
  | cons f l ih => rw [List.foldl_cons, ih, foldCsv_summary]

theorem foldl_csv_gates (l : List (String × Except String (List Char)))
    (a : Analysis) : (l.foldl foldCsv a).gates = a.gates := by
  induction l generalizing a with
  | nil => rfl
  | cons f l ih => rw [List.foldl_cons, ih, foldCsv_gates]

theorem foldl_json_summary (l : List (String × String × Except String JValue))
    (a : Analysis) : (l.foldl foldJson a).summary = a.summary := by
  induction l generalizing a with
  | nil => rfl
  | cons f l ih => rw [List.foldl_cons, ih, foldJson_summary]

theorem foldl_json_gates (l : List (String × String × Except String JValue))
    (a : Analysis) : (l.foldl foldJson a).gates = a.gates := by
  induction l generalizing a with
  | nil => rfl
  | cons f l ih => rw [List.foldl_cons, ih, foldJson_gates]

theorem logfold_gates (rs : List LogResult) (a : Analysis) :
    (rs.foldl foldLog a).gates
      = (rs.map LogResult.gates).flatten.foldl (fun m p => upsert m p.1 p.2) a.gates := by
  induction rs generalizing a with
  | nil => rfl
  | cons r rs ih =>
    rw [List.foldl_cons, ih, List.map_cons, List.flatten_cons, List.foldl_append,
      foldLog_gates]

theorem logfold_overall (rs : List LogResult) (a : Analysis) :
    (rs.foldl foldLog a).summary.overall_success
      = (a.summary.overall_success || rs.any (fun r => r.overall_success)) := by
  induction rs generalizing a with
  | nil => simp
  | cons r rs ih =>
    rw [List.foldl_cons, ih, foldLog_overall, List.any_cons, Bool.or_assoc]

theorem logfold_total (rs : List LogResult) (a : Analysis) :
    (rs.foldl foldLog a).summary.total_gates
      = a.summary.total_gates + (rs.map (fun r => r.gates.length)).sum := by
  induction rs generalizing a with
  | nil => simp
  | cons r rs ih =>
    rw [List.foldl_cons, ih, foldLog_total, List.map_cons, List.sum_cons]
    omega

theorem logfold_balance (rs : List LogResult) (a : Analysis)
    (h : a.summary.total_gates = a.summary.passed_gates + a.summary.failed_gates) :
    (rs.foldl foldLog a).summary.total_gates
      = (rs.foldl foldLog a).summary.passed_gates
        + (rs.foldl foldLog a).summary.failed_gates := by
  induction rs generalizing a with
  | nil => exact h
  | cons r rs ih => exact ih _ (foldLog_balance a r h)

theorem analyze_foldl_form (d : ArtifactsDir) :
    analyze_artifacts_directory d
      = d.jsonFiles.foldl foldJson
          (d.csvFiles.foldl foldCsv ((logResults d).foldl foldLog initAnalysis)) := by
  simp only [analyze_artifacts_directory, logResults, List.foldl_map]

theorem analyze_gates (d : ArtifactsDir) :
    (analyze_artifacts_directory d).gates
      = dictOf ((logResults d).map LogResult.gates).flatten := by
  rw [analyze_foldl_form, foldl_json_gates, foldl_csv_gates, logfold_gates, dictOf]
  rfl

theorem analyze_overall (d : ArtifactsDir) :
    (analyze_artifacts_directory d).summary.overall_success
      = (logResults d).any (fun r => r.overall_success) := by
  rw [analyze_foldl_form, foldl_json_summary, foldl_csv_summary, logfold_overall]
  rfl

theorem analyze_total (d : ArtifactsDir) :
    (analyze_artifacts_directory d).summary.total_gates
      = ((logResults d).map (fun r => r.gates.length)).sum := by
  rw [analyze_foldl_form, foldl_json_summary, foldl_csv_summary, logfold_total]
  simp [initAnalysis]

/-- C1 counterexample: a log text containing both markers (the failed one
even first) for which `parse_log_file` reports `overall_success = true`,
refuting the claim that both markers always yield `false`.  The `elif` in
lines 38-41 means the all-passed marker wins whenever present. -/
theorem claim1_counterexample :
    containsSub allPassedMarker bothMarkersText = true
    ∧ containsSub failedMarker bothMarkersText = true
    ∧ (parse_log_file (Except.ok bothMarkersText)).overall_success = true := by
  refine ⟨by decide, by decide, ?_⟩
  rw [parse_log_file_overall]
  decide

/-- C1 (amended): for every log text that contains both the
all-gates-passed marker and the gates-failed marker, `parse_log_file`
returns `overall_success = true` regardless of the order of the markers
in the text: the all-passed check runs first and the failed check is an
`elif`, so the passed marker takes precedence. -/
theorem claim1_amended (c : List Char)
    (hp : containsSub allPassedMarker c = true)
    (_hf : containsSub failedMarker c = true) :
    (parse_log_file (Except.ok c)).overall_success = true := by
  rw [parse_log_file_overall]
  simp [overallOf, hp]

/-- C1 witness: the amended theorem applied at `bothMarkersText`. -/
theorem claim1_witness :
    (parse_log_file (Except.ok bothMarkersText)).overall_success = true :=
  claim1_amended bothMarkersText (by decide) (by decide)

/-- C4: the entry point exits 0 iff the aggregated failed-gate count is
zero (including a directory with no artifacts at all); a missing
artifacts directory exits 1 with no output files written. -/
theorem claim4_exit_codes :
    (∀ d : ArtifactsDir,
      (mainRun (some d)).exitCode = 0
        ↔ (analyze_artifacts_directory d).summary.failed_gates = 0)
    ∧ (mainRun none).exitCode = 1
    ∧ (mainRun none).outputsWritten = false
    ∧ (mainRun (some { logFiles := [], csvFiles := [], jsonFiles := [] })).exitCode = 0 := by
  refine ⟨fun d => ?_, rfl, rfl, by decide⟩
  simp only [mainRun]
  by_cases hf : (analyze_artifacts_directory d).summary.failed_gates > 0 <;>
    simp [hf] <;> omega

/-- C5: no reader propagates a read failure: the log extractor returns
the untouched default result, the CSV reader the empty row list, the JSON
reader the empty object; and the aggregation folds leave the accumulator
unchanged on such a file, so the run continues with the remaining
files. -/
theorem claim5_readers_never_raise :
    (∀ e : String, parse_log_file (Except.error e) = defaultLogResult)
    ∧ (∀ e : String, parse_csv_report (Except.error e) = [])
    ∧ (∀ e : String, parse_json_report (Except.error e) = JValue.obj [])
    ∧ (∀ (a : Analysis) (e : String),
        foldLog a (parse_log_file (Except.error e)) = a)
    ∧ (∀ (a : Analysis) (n e : String), foldCsv a (n, Except.error e) = a)
    ∧ (∀ (a : Analysis) (n p e : String), foldJson a (n, p, Except.error e) = a) := by
  exact ⟨fun e => rfl, fun e => rfl, fun e => rfl, fun a e => rfl,
    fun a n e => rfl, fun a n p e => rfl⟩

/-- C6: the aggregate's `overall_success` is true iff at least one
processed log file parsed to `overall_success = true` (an OR across
per-log verdicts), and with zero log files it stays at its default
`false` whatever CSV and JSON files are present. -/
theorem claim6_overall_or :
    (∀ d : ArtifactsDir,
      ((analyze_artifacts_directory d).summary.overall_success = true
        ↔ ∃ f ∈ logSchedule d, (parse_log_file f.2).overall_success = true))
    ∧ (∀ (cs : List (String × Except String (List Char)))
        (js : List (String × String × Except String JValue)),
        (analyze_artifacts_directory
          { logFiles := [], csvFiles := cs, jsonFiles := js }).summary.overall_success
          = false) := by
  constructor
  · intro d
    rw [analyze_overall, logResults, List.any_eq_true]
    constructor
    · rintro ⟨r, hr, hp⟩
      rcases List.mem_map.mp hr with ⟨f, hf2, rfl⟩
      exact ⟨f, hf2, hp⟩
    · rintro ⟨f, hf2, hp⟩
      exact ⟨_, List.mem_map_of_mem _ hf2, hp⟩
  · intro cs js
    rw [analyze_overall]
    simp [logResults, logSchedule]

/-- `roundHalfEven` on an integer is that integer. -/
theorem roundHalfEven_int (n : ℤ) : roundHalfEven ((n : ℚ)) = n := by
  simp only [roundHalfEven, Int.floor_intCast, sub_self]
  norm_num

/-- The one concrete `{:.1f}` rendering C7 exercises (exact in binary
floating point as well, so the rational model agrees with Python). -/
theorem formatFixed1_75 :
    formatFixed1 ((((3 : Nat) : ℚ) / ((4 : Nat) : ℚ)) * 100) = "75.0" := by
  have h : (((3 : Nat) : ℚ) / ((4 : Nat) : ℚ)) * 100 * 10 = ((750 : ℤ) : ℚ) := by
    push_cast
    norm_num
  rw [formatFixed1, h, roundHalfEven_int]
  rfl

/-- C7: with `total_gates = 4` and `passed_gates = 3` the rendered
success-rate line carries exactly `75.0%`; with `total_gates = 0` the
line is omitted, so the division is never performed. -/
theorem claim7_success_rate (s : Summary) :
    (s.total_gates = 4 → s.passed_gates = 3 →
      successRateLine s = some "- **Success Rate**: 75.0%\n")
    ∧ (s.total_gates = 0 → successRateLine s = none) := by
  constructor
  · intro h4 h3
    simp only [successRateLine, h4, h3]
    rw [if_pos (by omega), formatFixed1_75]
    rfl
  · intro h0
    simp [successRateLine, h0]

/-- C7 witness: the theorem applied at the two concrete summaries. -/
theorem claim7_witness :
    successRateLine
        { total_gates := 4, passed_gates := 3, failed_gates := 1,
          overall_success := false } = some "- **Success Rate**: 75.0%\n"
    ∧ successRateLine
        { total_gates := 0, passed_gates := 0, failed_gates := 0,
          overall_success := false } = none :=
  ⟨(claim7_success_rate _).1 rfl rfl, (claim7_success_rate _).2 rfl⟩

/-- C2 counterexample: a single log file containing `Gate 'X': PASS`
once (N = 1) and `Gate 'X': FAIL` once (M = 1).  The stored value is the
last verdict, but `total_gates` is incremented only once — not N+M = 2 —
because the per-file dict collapses duplicate names before the
aggregation loop counts its entries. -/
theorem claim2_counterexample :
    ((gateMatches dupGateText).filter (fun p => p.1 == "X" && p.2)).length = 1
    ∧ ((gateMatches dupGateText).filter (fun p => p.1 == "X" && !p.2)).length = 1
    ∧ logSchedule dupGateDir = [("run.log", Except.ok dupGateText)]
    ∧ (analyze_artifacts_directory dupGateDir).summary.total_gates = 1
    ∧ ¬ (analyze_artifacts_directory dupGateDir).summary.total_gates = 1 + 1
    ∧ lookupD (analyze_artifacts_directory dupGateDir).gates "X" = some false := by
  refine ⟨by decide, by decide, rfl, by decide, by decide, by decide⟩

/-- C2 (amended): the stored value `gates[X]` equals the verdict of the
last occurrence processed (last match of the gate pattern for X, in
processing order, across the scheduled files), but `summary.total_gates`
increments by one per entry of each file's parsed gates dict — that is,
per distinct gate name per file — so duplicate occurrences of a name
within one file are collapsed before counting, while the same name in
several files is still counted once per file. -/
theorem claim2_amended (d : ArtifactsDir) (X : String) :
    lookupD (analyze_artifacts_directory d).gates X
      = lastVal X (((logSchedule d).map (fun f => rawGates f.2)).flatten)
    ∧ (analyze_artifacts_directory d).summary.total_gates
      = ((logResults d).map (fun r => r.gates.length)).sum
    ∧ ∀ inp : Except String (List Char),
        (keysOf (parse_log_file inp).gates).Nodup
        ∧ (X ∈ keysOf (parse_log_file inp).gates ↔ X ∈ keysOf (rawGates inp)) := by
  refine ⟨?_, analyze_total d, fun inp => ?_⟩
  · rw [analyze_gates, lookupD_dictOf]
    have h : (logResults d).map LogResult.gates
        = ((logSchedule d).map (fun f => rawGates f.2)).map dictOf := by
      rw [logResults, List.map_map, List.map_map]
      apply List.map_congr_left
      intro f _
      exact parse_log_file_gates f.2
    rw [h, lastVal_flatten_dictOf]
  · rw [parse_log_file_gates]
    exact ⟨nodup_keysOf_dictOf _, mem_keysOf_dictOf _ X⟩

/-- C3: the end-to-end scenario.  With the single log file of `e2eDir`,
the run writes `gate-results.csv` with exactly the two data rows
`latency,PASS,True` and `memory,FAIL,False`, the Markdown overall status
line reads PASSED, and the process exits with code 1 — overall success
and the failed-gate count are independent signals. -/
theorem claim3_end_to_end :
    gateResultsCsv (analyze_artifacts_directory e2eDir)
      = some ["Gate Name,Status,Success", "latency,PASS,True", "memory,FAIL,False"]
    ∧ statusLine (analyze_artifacts_directory e2eDir)
      = "## Overall Status: ✅ PASSED\n\n"
    ∧ statusText (analyze_artifacts_directory e2eDir) = "PASSED"
    ∧ (mainRun (some e2eDir)).exitCode = 1
    ∧ (analyze_artifacts_directory e2eDir).summary.failed_gates = 1
    ∧ (analyze_artifacts_directory e2eDir).summary.overall_success = true := by
  exact ⟨by decide, by decide, by decide, by decide, by decide, by decide⟩

/-- C8: CSV round trip.  Reading the file with header `[a,b]` and rows
`[(1,x), (2.5,y)]` yields the rows in file order, with row 0's column `a`
the number 1 (coerced from the string) and row 0's column `b` the
unchanged string `"x"`. -/
theorem claim8_csv_roundtrip :
    parse_csv_report (Except.ok rowsCsvText)
      = [[("a", Cell.num 1), ("b", Cell.str "x")],
         [("a", Cell.num (5 / 2)), ("b", Cell.str "y")]] := by
  have hrec : parse_csv_report (Except.ok rowsCsvText)
      = [[("a", coerceCell "1"), ("b", coerceCell "x")],
         [("a", coerceCell "2.5"), ("b", coerceCell "y")]] := by rfl
  have h1 : coerceCell "1" = Cell.num 1 := by
    have e : parseDecimal "1".data = some (((1 : ℕ) : ℚ)) := rfl
    rw [coerceCell, e]
    norm_num
  have h25 : coerceCell "2.5" = Cell.num (5 / 2) := by
    have e : parseDecimal "2.5".data
        = some (((2 : ℕ) : ℚ) + ((5 : ℕ) : ℚ) / (10 ^ (1 : ℕ))) := rfl
    rw [coerceCell, e]
    push_cast
    norm_num
  rw [hrec, h1, h25]
  rfl

/-- Balance preservation along the log-file loop. -/
theorem logfold_files_balance (fs : List (String × Except String (List Char)))
    (a : Analysis)
    (h : a.summary.total_gates = a.summary.passed_gates + a.summary.failed_gates) :
    (fs.foldl (fun a f => foldLog a (parse_log_file f.2)) a).summary.total_gates
      = (fs.foldl (fun a f => foldLog a (parse_log_file f.2)) a).summary.passed_gates
        + (fs.foldl (fun a f => foldLog a (parse_log_file f.2)) a).summary.failed_gates := by
  induction fs generalizing a with
  | nil => exact h
  | cons f fs ih => exact ih _ (foldLog_balance a _ h)

/-- C9: counter consistency.  At every intermediate point of the
aggregation (any number of fully merged files plus any prefix of the
next file's gate entries) and in the final aggregate,
`total_gates = passed_gates + failed_gates`. -/
theorem claim9_counter_invariant (d : ArtifactsDir) (k j : Nat) :
    (partialAnalysis d k j).summary.total_gates
      = (partialAnalysis d k j).summary.passed_gates
        + (partialAnalysis d k j).summary.failed_gates
    ∧ (analyze_artifacts_directory d).summary.total_gates
      = (analyze_artifacts_directory d).summary.passed_gates
        + (analyze_artifacts_directory d).summary.failed_gates := by
  have hpre :
      (((logSchedule d).take k).foldl
        (fun a f => foldLog a (parse_log_file f.2)) initAnalysis).summary.total_gates
      = (((logSchedule d).take k).foldl
          (fun a f => foldLog a (parse_log_file f.2)) initAnalysis).summary.passed_gates
        + (((logSchedule d).take k).foldl
            (fun a f => foldLog a (parse_log_file f.2)) initAnalysis).summary.failed_gates :=
    logfold_files_balance _ _ (by simp [initAnalysis])
  constructor
  · simp only [partialAnalysis]
    cases hdrop : (logSchedule d).drop k with
    | nil => exact hpre
    | cons f rest => exact foldl_gateEntries_balance _ _ hpre
  · rw [analyze_foldl_form, foldl_json_summary, foldl_csv_summary]
    exact logfold_balance _ _ (by simp [initAnalysis])

/-- The metrics loop fails as soon as any captured number fails to
convert. -/
theorem traverseMetrics_eq_none (l : List (String × String))
    (h : ∃ p ∈ l, parseDecimal p.2.data = none) : traverseMetrics l = none := by
  induction l with
  | nil =>
    rcases h with ⟨p, hp, _⟩
    cases hp
  | cons q l ih =>
    rcases h with ⟨p, hp, hnone⟩
    rcases List.mem_cons.mp hp with rfl | hmem
    · simp [traverseMetrics, hnone]
    · cases hq : parseDecimal q.2.data with
      | none => simp [traverseMetrics, hq]
      | some v => simp [traverseMetrics, hq, ih ⟨p, hmem, hnone⟩]

/-- A failing float conversion makes the whole metrics loop raise. -/
theorem convertMetrics_eq_none (l : List (String × String))
    (h : ∃ p ∈ l, parseDecimal p.2.data = none) : convertMetrics l = none := by
  rw [convertMetrics, traverseMetrics_eq_none l h]
  rfl

/-- C10: when the log text contains a metric-pattern occurrence whose
captured number is not a valid float literal, the conversion raises
inside the `try` block after `build_id`, `overall_success` and `gates`
were already assigned, so `parse_log_file` returns exactly those fields
and no metrics mapping at all. -/
theorem claim10_metrics_abort (c : List Char)
    (h : ∃ p ∈ metricMatches c, parseDecimal p.2.data = none) :
    parse_log_file (Except.ok c)
      = { gates := dictOf (gateMatches c), overall_success := overallOf c,
          execution_time := 0, build_id := buildIdOf c, timestamp := none,
          metrics := none } := by
  have hcm : convertMetrics (metricMatches c) = none := convertMetrics_eq_none _ h
  simp [parse_log_file, hcm]

/-- C10 witness: the theorem applied at `version: 1.2.3`. -/
theorem claim10_witness :
    (∃ p ∈ metricMatches verText, parseDecimal p.2.data = none)
    ∧ parse_log_file (Except.ok verText)
        = { gates := dictOf (gateMatches verText),
            overall_success := overallOf verText, execution_time := 0,
            build_id := buildIdOf verText, timestamp := none,
            metrics := none } :=
  ⟨by decide, claim10_metrics_abort verText (by decide)⟩

end PerfAnalysis
